import Mathlib

/-!
Verification of the VRX `AcousticPinger` plugin
(`usv_gazebo_plugins/acoustic_pinger_plugin.hh`): a rate-limited noisy
relative sensor that tracks a target position and, once per rate window,
publishes a range/bearing/elevation observation of the target relative to
the sensor pose.  Only the class declaration is in the repository tree;
the bodies of `Load`, `UpdateChild` and `PingerPositionCallback` live in
the missing `.cc` file, so those operations are modelled from the spec.
-/

namespace VRX

/-- A 3-D point or vector with real coordinates (models
`ignition::math::Vector3d`). -/
structure Vec3 where
  x : ℝ
  y : ℝ
  z : ℝ

/-- Componentwise subtraction of 3-D vectors. -/
noncomputable def Vec3.sub (a b : Vec3) : Vec3 :=
  ⟨a.x - b.x, a.y - b.y, a.z - b.z⟩

/-- Componentwise addition of 3-D vectors. -/
noncomputable def Vec3.add (a b : Vec3) : Vec3 :=
  ⟨a.x + b.x, a.y + b.y, a.z + b.z⟩

/-- A quaternion (models `ignition::math::Quaterniond`, the orientation
part of a Gazebo pose). -/
structure Quat where
  w : ℝ
  x : ℝ
  y : ℝ
  z : ℝ

/-- Hamilton product of quaternions. -/
noncomputable def Quat.mul (a b : Quat) : Quat :=
  ⟨a.w * b.w - a.x * b.x - a.y * b.y - a.z * b.z,
   a.w * b.x + a.x * b.w + a.y * b.z - a.z * b.y,
   a.w * b.y - a.x * b.z + a.y * b.w + a.z * b.x,
   a.w * b.z + a.x * b.y - a.y * b.x + a.z * b.w⟩

/-- Quaternion conjugate; for a unit quaternion this is its inverse. -/
noncomputable def Quat.conj (q : Quat) : Quat :=
  ⟨q.w, -q.x, -q.y, -q.z⟩

/-- Squared norm of a quaternion. -/
noncomputable def Quat.normSq (q : Quat) : ℝ :=
  q.w ^ 2 + q.x ^ 2 + q.y ^ 2 + q.z ^ 2

/-- Embeds a vector as a pure quaternion (zero scalar part). -/
noncomputable def Quat.ofVec (v : Vec3) : Quat :=
  ⟨0, v.x, v.y, v.z⟩

/-- The vector (imaginary) part of a quaternion. -/
def Quat.vec (q : Quat) : Vec3 :=
  ⟨q.x, q.y, q.z⟩

/-- Rotation of a vector by a quaternion: the vector part of
`q * v * conj q` (the forward rotation, local frame to world frame). -/
noncomputable def rotateVector (q : Quat) (v : Vec3) : Vec3 :=
  ((q.mul (Quat.ofVec v)).mul q.conj).vec

/-- Rotation of a vector by the inverse of a quaternion: the vector part
of `conj q * v * q` (world frame to local frame). -/
noncomputable def rotateVectorReverse (q : Quat) (v : Vec3) : Vec3 :=
  ((q.conj.mul (Quat.ofVec v)).mul q).vec

/-- A pose: position plus orientation, as supplied by the simulator for
the sensor's model each tick. -/
structure Pose where
  pos : Vec3
  rot : Quat

/-- Modelled from the spec: the world-to-local transform used by the
missing `UpdateChild` body — "transform the target point from the
world/reference frame into the sensor's local frame using the sensor
pose's inverse transform (translate by `-sensorPosition`, then rotate by
the inverse of `sensorOrientation`)". -/
noncomputable def worldToLocal (pose : Pose) (p : Vec3) : Vec3 :=
  rotateVectorReverse pose.rot (p.sub pose.pos)

/-- The forward pose transform (local frame to world frame): rotate by
the orientation, then translate by the position. -/
noncomputable def localToWorld (pose : Pose) (v : Vec3) : Vec3 :=
  pose.pos.add (rotateVector pose.rot v)

/-- Two-argument arctangent, the standard math-library `atan2`
convention, with `atan2 0 0 = 0`. -/
noncomputable def atan2 (y x : ℝ) : ℝ :=
  if 0 < x then Real.arctan (y / x)
  else if x < 0 then
    if 0 ≤ y then Real.arctan (y / x) + Real.pi
    else Real.arctan (y / x) - Real.pi
  else
    if 0 < y then Real.pi / 2
    else if y < 0 then -(Real.pi / 2)
    else 0

/-- Modelled from the spec: the true (pre-noise) range computed by the
missing `UpdateChild` body: `sqrt (dx^2 + dy^2 + dz^2)` of the
local-frame vector. -/
noncomputable def trueRange (pose : Pose) (target : Vec3) : ℝ :=
  Real.sqrt ((worldToLocal pose target).x ^ 2 +
             (worldToLocal pose target).y ^ 2 +
             (worldToLocal pose target).z ^ 2)

/-- Modelled from the spec: the true (pre-noise) bearing computed by the
missing `UpdateChild` body: `atan2 dy dx` of the local-frame vector. -/
noncomputable def trueBearing (pose : Pose) (target : Vec3) : ℝ :=
  atan2 (worldToLocal pose target).y (worldToLocal pose target).x

/-- Modelled from the spec: the true (pre-noise) elevation computed by
the missing `UpdateChild` body: `atan2 dz (sqrt (dx^2 + dy^2))` of the
local-frame vector. -/
noncomputable def trueElevation (pose : Pose) (target : Vec3) : ℝ :=
  atan2 (worldToLocal pose target).z
    (Real.sqrt ((worldToLocal pose target).x ^ 2 +
                (worldToLocal pose target).y ^ 2))

/-- An observation message published on an accepted tick: timestamp,
frame identifier, and the noisy range/bearing/elevation triple. -/
structure Observation where
  timestamp : ℚ
  frameId : String
  range : ℝ
  bearing : ℝ
  elevation : ℝ

/-- The mutable/configured fields of the `AcousticPinger` class that the
core logic touches: frame id, update rate, the three noise samplers,
the tracked pinger position, and the last-update clock.  Noise samplers
are total functions `sample : trueValue → noisyValue`, matching the
spec's pluggable-noise capability. -/
structure Pinger where
  frameId : String
  updateRate : ℚ
  rangeNoise : ℝ → ℝ
  bearingNoise : ℝ → ℝ
  elevationNoise : ℝ → ℝ
  position : Vec3
  lastUpdateTime : ℚ

/-- Modelled from the spec: the body of `AcousticPinger::UpdateChild`
(missing `.cc` file).  Rate gate: if `simTime - lastUpdateTime <
1 / updateRate`, return immediately with no side effect; otherwise set
`lastUpdateTime := simTime`, compute the true range/bearing/elevation of
the target in the sensor's local frame, pass each through its noise
sampler, and publish one observation stamped with `simTime` and the
configured frame id. -/
noncomputable def UpdateChild (s : Pinger) (simTime : ℚ) (sensorPose : Pose) :
    Pinger × Option Observation :=
  if simTime - s.lastUpdateTime < 1 / s.updateRate then
    (s, none)
  else
    ({ s with lastUpdateTime := simTime },
     some { timestamp := simTime
            frameId := s.frameId
            range := s.rangeNoise (trueRange sensorPose s.position)
            bearing := s.bearingNoise (trueBearing sensorPose s.position)
            elevation := s.elevationNoise (trueElevation sensorPose s.position) })

/-- Modelled from the spec: the body of
`AcousticPinger::PingerPositionCallback` (missing `.cc` file) —
overwrite the stored pinger position with the newly received one. -/
noncomputable def PingerPositionCallback (s : Pinger) (newPos : Vec3) : Pinger :=
  { s with position := newPos }

/-- Modelled from the spec: the body of `AcousticPinger::Load` (missing
`.cc` file) — construction from configuration.  Fails fast with a
configuration error if the update rate is not positive; otherwise the
pinger starts with the configured frame id, update rate and noise
samplers, the supplied initial position (defaulting to the origin when
unspecified), and a zero last-update clock. -/
noncomputable def load (frameId : String) (updateRate : ℚ)
    (rangeNoise bearingNoise elevationNoise : ℝ → ℝ)
    (initialPos : Option Vec3) : Except String Pinger :=
  if updateRate ≤ 0 then
    .error "updateRate must be positive"
  else
    .ok { frameId := frameId
          updateRate := updateRate
          rangeNoise := rangeNoise
          bearingNoise := bearingNoise
          elevationNoise := elevationNoise
          position := initialPos.getD ⟨0, 0, 0⟩
          lastUpdateTime := 0 }

/-- Runs a sequence of ticks (all with the same sensor pose), collecting
every observation published along the way. -/
noncomputable def runTicks (pose : Pose) : Pinger → List ℚ → Pinger × List Observation
  | s, [] => (s, [])
  | s, t :: ts =>
      match UpdateChild s t pose with
      | (s1, obs) =>
          match runTicks pose s1 ts with
          | (s2, rest) => (s2, obs.toList ++ rest)

/-- The three noise-handle fields of the `AcousticPinger` class
declaration, as declared in the header: `gazebo::sensors::NoisePtr`
smart pointers with in-class initializers `= nullptr`.  A null handle is
`none`; a configured handle carries its sampling function. -/
structure PingerNoiseHandles where
  rangeNoise : Option (ℝ → ℝ) := none
  bearingNoise : Option (ℝ → ℝ) := none
  elevationNoise : Option (ℝ → ℝ) := none

/-- The noise handles of a default-constructed `AcousticPinger`, before
`Load` runs: each field takes its in-class initializer from the header
(`= nullptr`). -/
def defaultNoiseHandles : PingerNoiseHandles :=
  {}

/-- Sampling through a handle is only possible when the handle is
non-null: a null handle offers no sampler to call. -/
def sampleWith (handle : Option (ℝ → ℝ)) (trueValue : ℝ) : Option ℝ :=
  match handle with
  | none => none
  | some f => some (f trueValue)

/-- A concrete pinger used to exercise the operations: unit update rate,
identity noise samplers, target at `(3, 4, 0)`. -/
noncomputable def samplePinger : Pinger :=
  { frameId := "pinger"
    updateRate := 1
    rangeNoise := id
    bearingNoise := id
    elevationNoise := id
    position := ⟨3, 4, 0⟩
    lastUpdateTime := 0 }

/-- The identity pose: sensor at the origin with identity orientation. -/
noncomputable def originPose : Pose :=
  ⟨⟨0, 0, 0⟩, ⟨1, 0, 0, 0⟩⟩

lemma rotateVector_rotateVectorReverse (q : Quat) (v : Vec3) :
    rotateVector q (rotateVectorReverse q v) =
      ⟨q.normSq ^ 2 * v.x, q.normSq ^ 2 * v.y, q.normSq ^ 2 * v.z⟩ := by
  cases q
  cases v
  simp only [rotateVector, rotateVectorReverse, Quat.mul, Quat.conj, Quat.ofVec,
    Quat.vec, Quat.normSq, Vec3.mk.injEq]
  refine ⟨by ring, by ring, by ring⟩

lemma rotateVectorReverse_zero (q : Quat) :
    rotateVectorReverse q ⟨0, 0, 0⟩ = ⟨0, 0, 0⟩ := by
  cases q
  simp only [rotateVectorReverse, Quat.mul, Quat.conj, Quat.ofVec, Quat.vec,
    Vec3.mk.injEq]
  refine ⟨by ring, by ring, by ring⟩

lemma worldToLocal_self (pose : Pose) :
    worldToLocal pose pose.pos = ⟨0, 0, 0⟩ := by
  have h : pose.pos.sub pose.pos = (⟨0, 0, 0⟩ : Vec3) := by
    cases pose.pos
    simp [Vec3.sub]
  rw [worldToLocal, h, rotateVectorReverse_zero]

lemma atan2_zero_zero : atan2 0 0 = 0 := by
  norm_num [atan2]

lemma atan2_zero_of_pos {x : ℝ} (hx : 0 < x) : atan2 0 x = 0 := by
  rw [atan2, if_pos hx, zero_div, Real.arctan_zero]

lemma worldToLocal_originPose (v : Vec3) : worldToLocal originPose v = v := by
  cases v
  simp only [worldToLocal, originPose, Vec3.sub, rotateVectorReverse, Quat.conj,
    Quat.ofVec, Quat.mul, Quat.vec, Vec3.mk.injEq]
  refine ⟨by ring, by ring, by ring⟩

lemma runTicks_all_rejected (pose : Pose) (s : Pinger) (ts : List ℚ)
    (h : ∀ u ∈ ts, u - s.lastUpdateTime < 1 / s.updateRate) :
    runTicks pose s ts = (s, []) := by
  induction ts with
  | nil => rfl
  | cons u ts ih =>
      have hu : u - s.lastUpdateTime < 1 / s.updateRate := h u (by simp)
      have hrec := ih (fun v hv => h v (by simp [hv]))
      rw [one_div] at hu
      simp [runTicks, UpdateChild, hu, hrec]

/-- C5: for every target position and sensor pose with a unit-quaternion
orientation, transforming the target into the sensor-local frame by the
inverse pose transform and then applying the forward pose transform
recovers the target exactly. -/
theorem pose_transform_round_trip (pose : Pose) (p : Vec3)
    (h : pose.rot.normSq = 1) :
    localToWorld pose (worldToLocal pose p) = p := by
  rw [localToWorld, worldToLocal, rotateVector_rotateVectorReverse, h]
  cases hp : pose.pos
  cases p
  simp only [Vec3.add, Vec3.sub, Vec3.mk.injEq]
  refine ⟨by ring, by ring, by ring⟩

/-- C5 witness: the round trip at a concrete pose (position `(1, 2, 3)`,
orientation the unit quaternion `(0, 1, 0, 0)`) and target `(5, -7, 11)`. -/
theorem pose_transform_round_trip_witness :
    Quat.normSq ⟨0, 1, 0, 0⟩ = 1 ∧
    localToWorld ⟨⟨1, 2, 3⟩, ⟨0, 1, 0, 0⟩⟩
      (worldToLocal ⟨⟨1, 2, 3⟩, ⟨0, 1, 0, 0⟩⟩ ⟨5, -7, 11⟩) = ⟨5, -7, 11⟩ := by
  have h : Quat.normSq ⟨0, 1, 0, 0⟩ = 1 := by norm_num [Quat.normSq]
  exact ⟨h, pose_transform_round_trip ⟨⟨1, 2, 3⟩, ⟨0, 1, 0, 0⟩⟩ ⟨5, -7, 11⟩ h⟩

/-- C4: whenever the target position coincides exactly with the sensor
position, the true (pre-noise) observation values are range `0`,
bearing `0` and elevation `0` by the `atan2 0 0 = 0` convention, and an
accepted tick still publishes an observation (no error). -/
theorem degenerate_geometry (pose : Pose) (target : Vec3)
    (h : target = pose.pos) :
    trueRange pose target = 0 ∧
    trueBearing pose target = 0 ∧
    trueElevation pose target = 0 ∧
    (∀ (s : Pinger) (t : ℚ), s.position = target →
      1 / s.updateRate ≤ t - s.lastUpdateTime →
      ((UpdateChild s t pose).2).isSome = true) := by
  subst h
  refine ⟨?_, ?_, ?_, ?_⟩
  · rw [trueRange, worldToLocal_self]
    norm_num
  · rw [trueBearing, worldToLocal_self]
    exact atan2_zero_zero
  · rw [trueElevation, worldToLocal_self]
    norm_num [atan2_zero_zero]
  · intro s t _ hacc
    have hnot : ¬ (t - s.lastUpdateTime < 1 / s.updateRate) := not_lt.mpr hacc
    rw [one_div] at hnot
    simp [UpdateChild, hnot]

/-- C4 witness: with the sensor at pose `((1, 2, 3), identity)` and the
target also at `(1, 2, 3)`, the true range, bearing and elevation are
all zero, and an accepted tick of a pinger tracking that target still
publishes. -/
theorem degenerate_geometry_witness :
    trueRange ⟨⟨1, 2, 3⟩, ⟨1, 0, 0, 0⟩⟩ ⟨1, 2, 3⟩ = 0 ∧
    trueBearing ⟨⟨1, 2, 3⟩, ⟨1, 0, 0, 0⟩⟩ ⟨1, 2, 3⟩ = 0 ∧
    trueElevation ⟨⟨1, 2, 3⟩, ⟨1, 0, 0, 0⟩⟩ ⟨1, 2, 3⟩ = 0 := by
  have h := degenerate_geometry ⟨⟨1, 2, 3⟩, ⟨1, 0, 0, 0⟩⟩ ⟨1, 2, 3⟩ rfl
  exact ⟨h.1, h.2.1, h.2.2.1⟩

/-- C1: the rate gate of `UpdateChild`.  A tick arriving less than
`1 / updateRate` after the last update returns the state unchanged and
publishes nothing; a tick arriving at least `1 / updateRate` later
advances `lastUpdateTime` to `simTime` and publishes exactly one
observation; and a run of ticks whose first is accepted and whose
remainder all fall within `1 / updateRate` of the first publishes
exactly one observation in total (the first). -/
theorem updateChild_rate_gate (s : Pinger) (t : ℚ) (pose : Pose) :
    (t - s.lastUpdateTime < 1 / s.updateRate →
      UpdateChild s t pose = (s, none)) ∧
    (1 / s.updateRate ≤ t - s.lastUpdateTime →
      (UpdateChild s t pose).1.lastUpdateTime = t ∧
      ∃ o, (UpdateChild s t pose).2 = some o) ∧
    (∀ ts : List ℚ, 1 / s.updateRate ≤ t - s.lastUpdateTime →
      (∀ u ∈ ts, u - t < 1 / s.updateRate) →
      ((runTicks pose s (t :: ts)).2).length = 1) := by
  refine ⟨?_, ?_, ?_⟩
  · intro h
    rw [one_div] at h
    simp [UpdateChild, h]
  · intro h
    have hnot : ¬ (t - s.lastUpdateTime < 1 / s.updateRate) := not_lt.mpr h
    rw [one_div] at hnot
    simp [UpdateChild, hnot]
  · intro ts hacc hrest
    have hnot : ¬ (t - s.lastUpdateTime < 1 / s.updateRate) := not_lt.mpr hacc
    have hstep : UpdateChild s t pose =
        ({ s with lastUpdateTime := t },
         some { timestamp := t
                frameId := s.frameId
                range := s.rangeNoise (trueRange pose s.position)
                bearing := s.bearingNoise (trueBearing pose s.position)
                elevation := s.elevationNoise (trueElevation pose s.position) }) := by
      rw [one_div] at hnot
      simp [UpdateChild, hnot]
    have hrej := runTicks_all_rejected pose { s with lastUpdateTime := t } ts
      (fun u hu => hrest u hu)
    simp [runTicks, hstep, hrej]

/-- C1 witness: with unit update rate and clock at `0`, a tick at time
`1/2` is rejected with no state change, and the run `[1, 3/2]` (first
accepted, second within the window) publishes exactly one observation. -/
theorem updateChild_rate_gate_witness :
    UpdateChild samplePinger (1 / 2) originPose = (samplePinger, none) ∧
    ((runTicks originPose samplePinger (1 :: [3 / 2])).2).length = 1 := by
  constructor
  · exact (updateChild_rate_gate samplePinger (1 / 2) originPose).1
      (by norm_num [samplePinger])
  · exact (updateChild_rate_gate samplePinger 1 originPose).2.2 [3 / 2]
      (by norm_num [samplePinger])
      (by intro u hu; simp at hu; norm_num [hu, samplePinger])

/-- C2: the true values of an accepted tick come from the local-frame
vector produced by the inverse pose transform, via
`range = sqrt (dx^2 + dy^2 + dz^2)`, `bearing = atan2 dy dx` and
`elevation = atan2 dz (sqrt (dx^2 + dy^2))`; in particular, with
identity noise samplers, the sensor at the origin with identity
orientation, and the target at `(3, 4, 0)`, an accepted tick publishes
range `5`, bearing `atan2 4 3` and elevation `0`. -/
theorem updateChild_geometry (pose : Pose) (target : Vec3) :
    (worldToLocal pose target =
      rotateVectorReverse pose.rot (target.sub pose.pos)) ∧
    (trueRange pose target =
      Real.sqrt ((worldToLocal pose target).x ^ 2 +
        (worldToLocal pose target).y ^ 2 + (worldToLocal pose target).z ^ 2)) ∧
    (trueBearing pose target =
      atan2 (worldToLocal pose target).y (worldToLocal pose target).x) ∧
    (trueElevation pose target =
      atan2 (worldToLocal pose target).z
        (Real.sqrt ((worldToLocal pose target).x ^ 2 +
          (worldToLocal pose target).y ^ 2))) ∧
    (∀ (s : Pinger) (t : ℚ),
      s.rangeNoise = id → s.bearingNoise = id → s.elevationNoise = id →
      s.position = ⟨3, 4, 0⟩ →
      1 / s.updateRate ≤ t - s.lastUpdateTime →
      (UpdateChild s t originPose).2 =
        some { timestamp := t
               frameId := s.frameId
               range := 5
               bearing := atan2 4 3
               elevation := 0 }) := by
  refine ⟨rfl, rfl, rfl, rfl, ?_⟩
  intro s t hr hb he hp hacc
  have hnot : ¬ (t - s.lastUpdateTime < 1 / s.updateRate) := not_lt.mpr hacc
  have h1 : trueRange originPose ⟨3, 4, 0⟩ = 5 := by
    rw [trueRange, worldToLocal_originPose]
    show Real.sqrt ((3:ℝ) ^ 2 + (4:ℝ) ^ 2 + (0:ℝ) ^ 2) = 5
    rw [show (3:ℝ) ^ 2 + (4:ℝ) ^ 2 + (0:ℝ) ^ 2 = 5 ^ 2 by norm_num,
      Real.sqrt_sq (by norm_num : (0:ℝ) ≤ 5)]
  have h2 : trueBearing originPose ⟨3, 4, 0⟩ = atan2 4 3 := by
    rw [trueBearing, worldToLocal_originPose]
  have h3 : trueElevation originPose ⟨3, 4, 0⟩ = 0 := by
    rw [trueElevation, worldToLocal_originPose]
    show atan2 (0:ℝ) (Real.sqrt ((3:ℝ) ^ 2 + (4:ℝ) ^ 2)) = 0
    exact atan2_zero_of_pos (Real.sqrt_pos.mpr (by norm_num))
  simp only [UpdateChild, if_neg hnot, hp, hr, hb, he, id_eq, h1, h2, h3]

/-- C2 witness: the sample pinger (identity noise, target `(3, 4, 0)`,
unit rate, clock `0`) at time `1` with the origin/identity pose
publishes range `5`, bearing `atan2 4 3`, elevation `0`. -/
theorem updateChild_geometry_witness :
    (UpdateChild samplePinger 1 originPose).2 =
      some { timestamp := 1
             frameId := samplePinger.frameId
             range := 5
             bearing := atan2 4 3
             elevation := 0 } :=
  (updateChild_geometry originPose ⟨3, 4, 0⟩).2.2.2.2 samplePinger 1
    rfl rfl rfl rfl (by norm_num [samplePinger])

/-- C6: every accepted tick publishes exactly one observation, whose
range, bearing and elevation are the outputs of the respective noise
samplers applied to the corresponding true values, whose frame id is
the configured one, and whose timestamp is the tick's `simTime`. -/
theorem updateChild_observation_content (s : Pinger) (t : ℚ) (pose : Pose)
    (h : 1 / s.updateRate ≤ t - s.lastUpdateTime) :
    (UpdateChild s t pose).2 =
      some { timestamp := t
             frameId := s.frameId
             range := s.rangeNoise (trueRange pose s.position)
             bearing := s.bearingNoise (trueBearing pose s.position)
             elevation := s.elevationNoise (trueElevation pose s.position) } := by
  have hnot : ¬ (t - s.lastUpdateTime < 1 / s.updateRate) := not_lt.mpr h
  rw [one_div] at hnot
  simp [UpdateChild, hnot]

/-- C6 witness: the accepted tick of the sample pinger at time `1`
publishes the observation with identity-noise values, the configured
frame id, and timestamp `1`. -/
theorem updateChild_observation_content_witness :
    (UpdateChild samplePinger 1 originPose).2 =
      some { timestamp := 1
             frameId := samplePinger.frameId
             range := samplePinger.rangeNoise (trueRange originPose samplePinger.position)
             bearing := samplePinger.bearingNoise (trueBearing originPose samplePinger.position)
             elevation :=
               samplePinger.elevationNoise (trueElevation originPose samplePinger.position) } :=
  updateChild_observation_content samplePinger 1 originPose (by norm_num [samplePinger])

/-- C3: construction fails with a configuration error exactly when the
update rate is zero or negative, and succeeds exactly when it is
positive. -/
theorem load_rate_validation (frameId : String) (updateRate : ℚ)
    (rn bn en : ℝ → ℝ) (initialPos : Option Vec3) :
    (updateRate ≤ 0 →
      load frameId updateRate rn bn en initialPos =
        .error "updateRate must be positive") ∧
    (0 < updateRate →
      ∃ s, load frameId updateRate rn bn en initialPos = .ok s) := by
  constructor
  · intro h
    simp [load, h]
  · intro h
    have hnot : ¬ updateRate ≤ 0 := not_le.mpr h
    exact ⟨_, by rw [load, if_neg hnot]⟩

/-- C3 witness: loading with rate `0` fails, with rate `-1` fails, and
with rate `1` succeeds. -/
theorem load_rate_validation_witness :
    load "pinger" 0 id id id none = .error "updateRate must be positive" ∧
    load "pinger" (-1) id id id none = .error "updateRate must be positive" ∧
    (∃ s, load "pinger" 1 id id id none = .ok s) :=
  ⟨(load_rate_validation "pinger" 0 id id id none).1 (by norm_num),
   (load_rate_validation "pinger" (-1) id id id none).1 (by norm_num),
   (load_rate_validation "pinger" 1 id id id none).2 (by norm_num)⟩

/-- C7: when no initial position is configured, `load` initializes the
target position to the origin; when one is configured, it initializes
the target position to it. -/
theorem load_initial_position (frameId : String) (updateRate : ℚ)
    (rn bn en : ℝ → ℝ) (h : 0 < updateRate) :
    (∃ s, load frameId updateRate rn bn en none = .ok s ∧
      s.position = ⟨0, 0, 0⟩) ∧
    (∀ p : Vec3, ∃ s, load frameId updateRate rn bn en (some p) = .ok s ∧
      s.position = p) := by
  have hnot : ¬ updateRate ≤ 0 := not_le.mpr h
  constructor
  · exact ⟨_, by rw [load, if_neg hnot], rfl⟩
  · intro p
    exact ⟨_, by rw [load, if_neg hnot], rfl⟩

/-- C7 witness: at rate `1`, loading with no initial position yields
position `(0, 0, 0)`, and loading with initial position `(3, 4, 0)`
yields that position. -/
theorem load_initial_position_witness :
    (∃ s, load "pinger" 1 id id id none = .ok s ∧ s.position = ⟨0, 0, 0⟩) ∧
    (∃ s, load "pinger" 1 id id id (some ⟨3, 4, 0⟩) = .ok s ∧
      s.position = ⟨3, 4, 0⟩) := by
  have h := load_initial_position "pinger" 1 id id id (by norm_num)
  exact ⟨h.1, h.2 ⟨3, 4, 0⟩⟩

/-- C8: `PingerPositionCallback` overwrites the stored target position
with the received one and leaves every other component field (frame id,
update rate, noise samplers, last-update clock) unchanged; it is a
total function with no error outcome. -/
theorem pingerPositionCallback_effect (s : Pinger) (p : Vec3) :
    (PingerPositionCallback s p).position = p ∧
    (PingerPositionCallback s p).lastUpdateTime = s.lastUpdateTime ∧
    (PingerPositionCallback s p).frameId = s.frameId ∧
    (PingerPositionCallback s p).updateRate = s.updateRate ∧
    (PingerPositionCallback s p).rangeNoise = s.rangeNoise ∧
    (PingerPositionCallback s p).bearingNoise = s.bearingNoise ∧
    (PingerPositionCallback s p).elevationNoise = s.elevationNoise :=
  ⟨rfl, rfl, rfl, rfl, rfl, rfl, rfl⟩

/-- C10: a default-constructed `AcousticPinger` has all three noise
handles null (the header's in-class `= nullptr` initializers), so no
sampler is available to call before configuration assigns them. -/
theorem default_noise_handles_null :
    defaultNoiseHandles.rangeNoise = none ∧
    defaultNoiseHandles.bearingNoise = none ∧
    defaultNoiseHandles.elevationNoise = none ∧
    ∀ v : ℝ, sampleWith defaultNoiseHandles.rangeNoise v = none ∧
      sampleWith defaultNoiseHandles.bearingNoise v = none ∧
      sampleWith defaultNoiseHandles.elevationNoise v = none :=
  ⟨rfl, rfl, rfl, fun _ => ⟨rfl, rfl, rfl⟩⟩

end VRX
